import Mathlib

/-!
Shallow embedding of `src/pycptcore/main.py` (py-cptcore).

Python values appearing in the API payloads are modelled explicitly:
a data column is a list of cells, a cell is `Option Val` (`none` is
Python `None`/NaN), and a response dictionary is an association list.
Fallible Python code (constructors running `__post_init__`, factory
classmethods, the reprojection call) is embedded into `Except PyError`.
-/

namespace PyCptCore

/-- A scalar appearing in an API payload sequence: a string or a number. -/
inductive Val where
  | str (s : String)
  | num (n : Int)
deriving DecidableEq, Repr

/-- One cell of a data column; `none` models Python `None` / NaN. -/
abbrev Cell := Option Val

/-- A data column: a Python list of scalars-or-None. -/
abbrev Column := List Cell

/-- A table-shaped API response dictionary: keys mapped to data columns. -/
abbrev ApiDict := List (String × Column)

/-- Python `d.get(k)`: the value bound to `k`, or `None` when absent. -/
def dictGet (d : ApiDict) (k : String) : Option Column :=
  (d.find? (fun p => p.1 == k)).map (fun p => p.2)

/-- The Python exceptions raised by the embedded code. -/
inductive PyError where
  | valueError (msg : String)
  | typeError (msg : String)
  | frozenInstanceError (fld : String)
  | runtimeError (body : String)
deriving DecidableEq, Repr

/-- Message of the `TypeError` raised by `len(None)`. -/
def lenNoneMsg : String := "object of type NoneType has no len()"

/-- Message of the `ValueError` raised by `__post_init__`. -/
def lenValMsg : String := "All values in this dataclass must have the same length."

/-- Python `len(values)` for a dataclass field that is a sequence or `None`:
`len` of a list is its length, `len(None)` raises `TypeError`. -/
def pyLen : Option Column → Except PyError Nat
  | none => .error (.typeError lenNoneMsg)
  | some xs => .ok xs.length

/-- `[len(values) for values in self.__dict__.values()]`: lengths of the
fields in declaration order, raising at the first `None` field. -/
def rawLengths : List (Option Column) → Except PyError (List Nat)
  | [] => .ok []
  | f :: fs =>
      match pyLen f with
      | .error e => .error e
      | .ok n =>
          match rawLengths fs with
          | .error e => .error e
          | .ok ns => .ok (n :: ns)

/-- `__post_init__` shared by `LayerTable` and `CPTTable`: computes the raw
lengths, then raises `ValueError` when `len(list(set(raw_lengths))) > 1`. -/
def checkLengths (fields : List (Option Column)) : Except PyError Unit :=
  match rawLengths fields with
  | .error e => .error e
  | .ok ns =>
      if ns.dedup.length > 1 then
        .error (.valueError lenValMsg)
      else
        .ok ()

/-- The `LayerTable` dataclass: ten parallel soil-layer sequences. A field
holds `none` when the factory was given a dictionary missing that key
(Python stores `None` in the field). -/
structure LayerTable where
  geotechnicalSoilName : Option Column
  lowerBoundary : Option Column
  upperBoundary : Option Column
  color : Option Column
  mainComponent : Option Column
  cohesion : Option Column
  gamma_sat : Option Column
  gamma_unsat : Option Column
  phi : Option Column
  undrainedShearStrength : Option Column
deriving DecidableEq, Repr

/-- `self.__dict__.values()` of a `LayerTable`, in field declaration order. -/
def LayerTable.fields (t : LayerTable) : List (Option Column) :=
  [t.geotechnicalSoilName, t.lowerBoundary, t.upperBoundary, t.color,
   t.mainComponent, t.cohesion, t.gamma_sat, t.gamma_unsat, t.phi,
   t.undrainedShearStrength]

/-- `LayerTable(...)`: dataclass construction, which runs `__post_init__`. -/
def LayerTable.mk_checked (t : LayerTable) : Except PyError LayerTable :=
  match checkLengths t.fields with
  | .error e => .error e
  | .ok _ => .ok t

/-- `LayerTable.from_api_response`: each of the ten fields is looked up by
its key with `dict.get`, so an absent key yields `None` for that field. -/
def LayerTable.from_api_response (d : ApiDict) : Except PyError LayerTable :=
  LayerTable.mk_checked
    { geotechnicalSoilName := dictGet d "geotechnicalSoilName"
      lowerBoundary := dictGet d "lowerBoundary"
      upperBoundary := dictGet d "upperBoundary"
      color := dictGet d "color"
      mainComponent := dictGet d "mainComponent"
      cohesion := dictGet d "cohesion"
      gamma_sat := dictGet d "gamma_sat"
      gamma_unsat := dictGet d "gamma_unsat"
      phi := dictGet d "phi"
      undrainedShearStrength := dictGet d "undrainedShearStrength" }

/-- The `CPTTable` dataclass: five parallel measurement sequences. -/
structure CPTTable where
  penetrationLength : Option Column
  depthOffset : Option Column
  coneResistance : Option Column
  localFriction : Option Column
  frictionRatio : Option Column
deriving DecidableEq, Repr

/-- `self.__dict__.values()` of a `CPTTable`, in field declaration order. -/
def CPTTable.fields (t : CPTTable) : List (Option Column) :=
  [t.penetrationLength, t.depthOffset, t.coneResistance, t.localFriction,
   t.frictionRatio]

/-- `CPTTable(...)`: dataclass construction, which runs `__post_init__`. -/
def CPTTable.mk_checked (t : CPTTable) : Except PyError CPTTable :=
  match checkLengths t.fields with
  | .error e => .error e
  | .ok _ => .ok t

/-- `CPTTable.from_api_response`: `penetrationLength` is
`response_dict.get("depth", response_dict.get("penetrationLength"))` and
`frictionRatio` is
`response_dict.get("frictionRatio", response_dict.get("frictionRatioComputed"))`;
the remaining fields are plain `dict.get` lookups. -/
def CPTTable.from_api_response (d : ApiDict) : Except PyError CPTTable :=
  CPTTable.mk_checked
    { penetrationLength := (dictGet d "depth").orElse
        (fun _ => dictGet d "penetrationLength")
      depthOffset := dictGet d "depthOffset"
      coneResistance := dictGet d "coneResistance"
      localFriction := dictGet d "localFriction"
      frictionRatio := (dictGet d "frictionRatio").orElse
        (fun _ => dictGet d "frictionRatioComputed") }

/-- A field as a column (a validated table has no `None` field). -/
def colOf (f : Option Column) : Column := f.getD []

/-- The cell of column `c` in row `i`. -/
def cellAt (c : Column) (i : Nat) : Cell := c.getD i none

/-- Row `i` survives `dropna(axis="rows", how="any")` exactly when every
column has a value in row `i`. -/
def keepRow (cols : List Column) (i : Nat) : Bool :=
  cols.all (fun c => (cellAt c i).isSome)

/-- Number of rows of `pd.DataFrame(self.__dict__)` (the common length of
the equal-length columns). -/
def nRows (cols : List Column) : Nat := (cols.headD []).length

/-- The joint drop mask of `dropna(how="any")`: one flag per row, shared by
every column. -/
def dropnaMask (cols : List Column) : List Bool :=
  (List.range (nRows cols)).map (keepRow cols)

/-- Restriction of one column to the rows kept by the mask. -/
def projectColumn (c : Column) (mask : List Bool) : Column :=
  ((c.zip mask).filter (fun p => p.2)).map (fun p => p.1)

/-- `dropna(how="any")` applied to a list of parallel columns. -/
def dropna (cols : List Column) : List Column :=
  cols.map (fun c => projectColumn c (dropnaMask cols))

/-- `LayerTable.dataframe`: `pd.DataFrame(self.__dict__)` followed by
`dropna(axis="rows", how="any")`, as the list of its ten columns. -/
def LayerTable.dataframe (t : LayerTable) : List Column :=
  dropna (t.fields.map colOf)

/-- `CPTTable.dataframe`: same joint-drop projection on five columns. -/
def CPTTable.dataframe (t : CPTTable) : List Column :=
  dropna (t.fields.map colOf)

/-- Row count of the derived tabular view of a `LayerTable`. -/
def LayerTable.nSurvivingRows (t : LayerTable) : Nat :=
  (dropnaMask (t.fields.map colOf)).count true

/-- Row count of the derived tabular view of a `CPTTable`. -/
def CPTTable.nSurvivingRows (t : CPTTable) : Nat :=
  (dropnaMask (t.fields.map colOf)).count true

/-- The `Location` dataclass (`frozen=True`): spatial reference name and a
coordinate pair. The factory fills the fields from `location.get(...)`
lookups, so each field may hold `None`. -/
structure Location where
  srs_name : Option Val
  long : Option Val
  lat : Option Val
deriving DecidableEq, Repr

/-- The reply of the external reprojection service (`requests.get`):
`ok` is `response.ok`, `text` the decoded body, `content` the raw body. -/
structure HttpResponse where
  ok : Bool
  text : String
  content : String
deriving DecidableEq, Repr

/-- Python `str(...)` of a coordinate field, as interpolated into the URL. -/
def pyStr : Option Val → String
  | none => "None"
  | some (.str s) => s
  | some (.num n) => toString n

/-- The epsg.io request URL built by `Location.transform` from the
location's coordinates. -/
def Location.url (l : Location) : String :=
  "https://epsg.io/trans?s_srs=4326&t_srs=28992&x=" ++ pyStr l.long ++
    "&y=" ++ pyStr l.lat ++ "&format=json"

/-- `Location.transform`: issues `requests.get` on the reprojection URL; on
a successful response the body is parsed with `json.loads` and returned,
otherwise `RuntimeError(response.content)` is raised. `http` models the
external service (the reply to each URL) and `parseJson` abstracts the
standard-library JSON decoder; both are collaborators outside the core. -/
def Location.transform {J : Type} (parseJson : String → J)
    (http : String → HttpResponse) (l : Location) : Except PyError J :=
  let response := http (Location.url l)
  if response.ok then .ok (parseJson response.text)
  else .error (.runtimeError response.content)

/-- A value of the `cpt/parse` response dictionary: a scalar, the nested
`data` block (keys to columns), or the nested `location` block (keys to
scalars). -/
inductive ParseVal where
  | v (x : Val)
  | table (d : ApiDict)
  | loc (d : List (String × Val))
deriving DecidableEq, Repr

/-- The `cpt/parse` response dictionary. -/
abbrev ParseDict := List (String × ParseVal)

/-- Python `response_parse.get(k)` on the parse response. -/
def parseGet (d : ParseDict) (k : String) : Option ParseVal :=
  (d.find? (fun p => p.1 == k)).map (fun p => p.2)

/-- Lookup in the `location` block (`location.get(k)`). -/
def locGet (l : List (String × Val)) (k : String) : Option Val :=
  (l.find? (fun p => p.1 == k)).map (fun p => p.2)

/-- `response_parse.get("data", {})`, which must be a mapping for the
subsequent `.get` calls of `CPTTable.from_api_response` to succeed. -/
def dataBlock (d : ParseDict) : Except PyError ApiDict :=
  match parseGet d "data" with
  | none => .ok []
  | some (.table t) => .ok t
  | some _ => .error (.typeError "data block is not a mapping")

/-- `response_parse.get("location", {})`, which must be a mapping for the
subsequent `location.get(...)` calls to succeed. -/
def locBlock (d : ParseDict) : Except PyError (List (String × Val)) :=
  match parseGet d "location" with
  | none => .ok []
  | some (.loc l) => .ok l
  | some _ => .error (.typeError "location block is not a mapping")

/-- The `SoilProperties` dataclass (`frozen=True`). The metadata fields
hold whatever the parse-response lookups produced. -/
structure SoilProperties where
  cpt_table : CPTTable
  layer_table : LayerTable
  location : Location
  verticalPositionReferencePoint : ParseVal
  verticalPositionOffset : ParseVal
  predrilledDepth : Option ParseVal
  label : ParseVal
  groundwaterLevel : Option ParseVal
deriving DecidableEq, Repr

/-- `SoilProperties.from_api_response`: builds the `CPTTable` from the
parse response's `data` block, the `LayerTable` from the classify response,
the `Location` from the `location` block, and the metadata fields by
`dict.get` with defaults `"Unknown"`, `0`, `"Unknown"`, and plain `get`
(default `None`) for `predrilledDepth` and `groundwaterLevel`. Failures of
the nested table constructions propagate in Python evaluation order. -/
def SoilProperties.from_api_response (response_parse : ParseDict)
    (response_classify : ApiDict) : Except PyError SoilProperties :=
  match dataBlock response_parse with
  | .error e => .error e
  | .ok data =>
      match CPTTable.from_api_response data with
      | .error e => .error e
      | .ok cpt =>
          match LayerTable.from_api_response response_classify with
          | .error e => .error e
          | .ok layer =>
              match locBlock response_parse with
              | .error e => .error e
              | .ok location =>
                  .ok
                    { cpt_table := cpt
                      layer_table := layer
                      location :=
                        { lat := locGet location "lat"
                          long := locGet location "long"
                          srs_name := locGet location "srs" }
                      verticalPositionReferencePoint :=
                        (parseGet response_parse
                          "verticalPositionReferencePoint").getD
                          (.v (.str "Unknown"))
                      verticalPositionOffset :=
                        (parseGet response_parse
                          "verticalPositionOffset").getD (.v (.num 0))
                      predrilledDepth :=
                        parseGet response_parse "predrilledDepth"
                      label :=
                        (parseGet response_parse "label").getD
                          (.v (.str "Unknown"))
                      groundwaterLevel :=
                        parseGet response_parse "groundwaterLevel" }

/-- Python truthiness of the values a metadata field can hold:
`None`, `0`, `""` and empty mappings are falsy. -/
def pyTruthy : ParseVal → Bool
  | .v (.str s) => !(s == "")
  | .v (.num n) => !(n == 0)
  | .table d => !d.isEmpty
  | .loc l => !l.isEmpty

/-- Python binary `-` on the values a metadata field can hold: defined on
numbers, `TypeError` otherwise. -/
def pySub : ParseVal → ParseVal → Except PyError Int
  | .v (.num a), .v (.num b) => .ok (a - b)
  | _, _ => .error (.typeError "unsupported operand type for -")

/-- One horizontal reference line drawn by `axes.axhline`. -/
structure HLine where
  y : Int
  color : String
  linestyle : String
  label : String
deriving DecidableEq, Repr

/-- One `if self.field: axes.axhline(y=self.verticalPositionOffset - self.field, ...)`
block of `SoilProperties.plot`: no line when the field is `None` or falsy,
otherwise a single line at `offset - value`. -/
def hlineOf (off : ParseVal) (v : Option ParseVal) (color lbl : String) :
    Except PyError (List HLine) :=
  match v with
  | none => .ok []
  | some g =>
      if pyTruthy g then
        match pySub off g with
        | .error e => .error e
        | .ok y => .ok [⟨y, color, "--", lbl⟩]
      else .ok []

/-- The horizontal reference lines drawn on the left panel by
`SoilProperties.plot` (source lines 443-458), in drawing order. -/
def SoilProperties.plotHLines (sp : SoilProperties) :
    Except PyError (List HLine) :=
  match hlineOf sp.verticalPositionOffset sp.groundwaterLevel
      "tab:blue" "Groundwater level" with
  | .error e => .error e
  | .ok gw =>
      match hlineOf sp.verticalPositionOffset sp.predrilledDepth
          "tab:brown" "Surface level" with
      | .error e => .error e
      | .ok pd => .ok (gw ++ pd)

/-! ### State-threaded embeddings

`@dataclass(frozen=True)` generates a `__setattr__` that raises
`FrozenInstanceError` on every attribute assignment, and none of the
methods assigns to a field of `self` or writes into a passed dictionary:
they perform reads (`dict.get`, field access) only. The threaded variants
below make that explicit: every dictionary read passes the dictionary
through, and each method returns the entity it was invoked on next to its
result. -/

/-- `__setattr__` generated by `@dataclass(frozen=True)` on `Location`,
`LayerTable`, `CPTTable` and `SoilProperties`: any assignment raises. -/
def frozenSetattr (fld : String) : Except PyError Unit :=
  .error (.frozenInstanceError fld)

/-- `dict.get` as a read on the dictionary state: the dictionary comes
back unchanged. -/
def dictGet_st (d : ApiDict) (k : String) : Option Column × ApiDict :=
  (dictGet d k, d)

/-- `parse_response.get` as a read on the dictionary state. -/
def parseGet_st (d : ParseDict) (k : String) : Option ParseVal × ParseDict :=
  (parseGet d k, d)

/-- `LayerTable.from_api_response` with the response dictionary threaded
through its ten reads. -/
def LayerTable.from_api_response_st (d0 : ApiDict) :
    Except PyError LayerTable × ApiDict :=
  let (v1, d1) := dictGet_st d0 "geotechnicalSoilName"
  let (v2, d2) := dictGet_st d1 "lowerBoundary"
  let (v3, d3) := dictGet_st d2 "upperBoundary"
  let (v4, d4) := dictGet_st d3 "color"
  let (v5, d5) := dictGet_st d4 "mainComponent"
  let (v6, d6) := dictGet_st d5 "cohesion"
  let (v7, d7) := dictGet_st d6 "gamma_sat"
  let (v8, d8) := dictGet_st d7 "gamma_unsat"
  let (v9, d9) := dictGet_st d8 "phi"
  let (v10, d10) := dictGet_st d9 "undrainedShearStrength"
  (LayerTable.mk_checked ⟨v1, v2, v3, v4, v5, v6, v7, v8, v9, v10⟩, d10)

/-- `CPTTable.from_api_response` with the response dictionary threaded
through its seven reads (the `.get` default arguments are evaluated
eagerly in Python, so the alias keys are read as well). -/
def CPTTable.from_api_response_st (d0 : ApiDict) :
    Except PyError CPTTable × ApiDict :=
  let (pl0, d1) := dictGet_st d0 "penetrationLength"
  let (pl1, d2) := dictGet_st d1 "depth"
  let (dOff, d3) := dictGet_st d2 "depthOffset"
  let (cr, d4) := dictGet_st d3 "coneResistance"
  let (lf, d5) := dictGet_st d4 "localFriction"
  let (frc, d6) := dictGet_st d5 "frictionRatioComputed"
  let (fr, d7) := dictGet_st d6 "frictionRatio"
  (CPTTable.mk_checked
    ⟨pl1.orElse (fun _ => pl0), dOff, cr, lf, fr.orElse (fun _ => frc)⟩, d7)

/-- `SoilProperties.from_api_response` with both response dictionaries
threaded through every read, the nested `data` block passed to the
threaded `CPTTable` factory and the classify dictionary to the threaded
`LayerTable` factory. -/
def SoilProperties.from_api_response_st (p0 : ParseDict) (c0 : ApiDict) :
    Except PyError SoilProperties × ParseDict × ApiDict :=
  let (locv, p1) := parseGet_st p0 "location"
  let (datav, p2) := parseGet_st p1 "data"
  let dataE : Except PyError ApiDict :=
    match datav with
    | none => .ok []
    | some (.table t) => .ok t
    | some _ => .error (.typeError "data block is not a mapping")
  match dataE with
  | .error e => (.error e, p2, c0)
  | .ok data =>
    match CPTTable.from_api_response_st data with
    | (.error e, _) => (.error e, p2, c0)
    | (.ok cpt, _) =>
      match LayerTable.from_api_response_st c0 with
      | (.error e, c1) => (.error e, p2, c1)
      | (.ok layer, c1) =>
        let locE : Except PyError (List (String × Val)) :=
          match locv with
          | none => .ok []
          | some (.loc L) => .ok L
          | some _ => .error (.typeError "location block is not a mapping")
        match locE with
        | .error e => (.error e, p2, c1)
        | .ok location =>
          let (vprp, p3) := parseGet_st p2 "verticalPositionReferencePoint"
          let (vpo, p4) := parseGet_st p3 "verticalPositionOffset"
          let (pdd, p5) := parseGet_st p4 "predrilledDepth"
          let (lbl, p6) := parseGet_st p5 "label"
          let (gwl, p7) := parseGet_st p6 "groundwaterLevel"
          (.ok
            { cpt_table := cpt
              layer_table := layer
              location :=
                { lat := locGet location "lat"
                  long := locGet location "long"
                  srs_name := locGet location "srs" }
              verticalPositionReferencePoint := vprp.getD (.v (.str "Unknown"))
              verticalPositionOffset := vpo.getD (.v (.num 0))
              predrilledDepth := pdd
              label := lbl.getD (.v (.str "Unknown"))
              groundwaterLevel := gwl }, p7, c1)

/-- `LayerTable.dataframe` as a state transformer on the entity: the
property only reads `self.__dict__`, so the entity is unchanged. -/
def LayerTable.dataframe_st (t : LayerTable) : List Column × LayerTable :=
  (t.dataframe, t)

/-- `CPTTable.dataframe` as a state transformer on the entity. -/
def CPTTable.dataframe_st (t : CPTTable) : List Column × CPTTable :=
  (t.dataframe, t)

/-- `Location.transform` as a state transformer on the entity. -/
def Location.transform_st {J : Type} (parseJson : String → J)
    (http : String → HttpResponse) (l : Location) :
    Except PyError J × Location :=
  (Location.transform parseJson http l, l)

/-- The reference-line part of `SoilProperties.plot` as a state
transformer on the entity: plotting draws on the figure and reads the
entity's fields, assigning none of them. -/
def SoilProperties.plotHLines_st (sp : SoilProperties) :
    Except PyError (List HLine) × SoilProperties :=
  (sp.plotHLines, sp)

/-! ### Lemmas about the length validation -/

theorem rawLengths_ok_of_present {fs : List (Option Column)}
    (h : ∀ f ∈ fs, f.isSome) :
    rawLengths fs = .ok (fs.map (fun f => (colOf f).length)) := by
  induction fs with
  | nil => rfl
  | cons f fs ih =>
      obtain ⟨c, rfl⟩ :=
        Option.isSome_iff_exists.mp (h f (List.mem_cons_self f fs))
      simp [rawLengths, pyLen, colOf,
        ih (fun g hg => h g (List.mem_cons_of_mem _ hg))]

theorem rawLengths_present {fs : List (Option Column)} {ns : List Nat}
    (h : rawLengths fs = .ok ns) : ∀ f ∈ fs, f.isSome := by
  induction fs generalizing ns with
  | nil => simp
  | cons f fs ih =>
      intro g hg
      match f with
      | none => simp [rawLengths, pyLen] at h
      | some c =>
          rcases List.mem_cons.mp hg with rfl | hg2
          · rfl
          · simp only [rawLengths, pyLen] at h
            cases hr : rawLengths fs with
            | error e => rw [hr] at h; simp at h
            | ok ms => exact ih hr g hg2

theorem rawLengths_ok_val {fs : List (Option Column)} {ns : List Nat}
    (h : rawLengths fs = .ok ns) :
    ns = fs.map (fun f => (colOf f).length) := by
  have h2 := rawLengths_ok_of_present (rawLengths_present h)
  rw [h] at h2
  injection h2

theorem rawLengths_of_none {fs : List (Option Column)}
    (h : none ∈ fs) : rawLengths fs = .error (.typeError lenNoneMsg) := by
  induction fs with
  | nil => cases h
  | cons f fs ih =>
      rcases List.mem_cons.mp h with rfl | h2
      · rfl
      · match f with
        | none => rfl
        | some c => simp [rawLengths, pyLen, ih h2]

theorem all_eq_of_dedup_len_le_one {ns : List Nat}
    (h : ns.dedup.length ≤ 1) : ∀ a ∈ ns, ∀ b ∈ ns, a = b := by
  intro a ha b hb
  have ha2 : a ∈ ns.dedup := List.mem_dedup.mpr ha
  have hb2 : b ∈ ns.dedup := List.mem_dedup.mpr hb
  rcases hd : ns.dedup with _ | ⟨x, _ | ⟨y, rest⟩⟩
  · rw [hd] at ha2; cases ha2
  · rw [hd] at ha2 hb2
    have hax : a = x := by simpa using ha2
    have hbx : b = x := by simpa using hb2
    rw [hax, hbx]
  · rw [hd] at h
    exact absurd h (by simp [List.length_cons])

theorem dedup_len_le_one {ns : List Nat}
    (h : ∀ a ∈ ns, ∀ b ∈ ns, a = b) : ns.dedup.length ≤ 1 := by
  by_contra hgt
  push_neg at hgt
  rcases hd : ns.dedup with _ | ⟨x, _ | ⟨y, rest⟩⟩
  · rw [hd] at hgt; simp at hgt
  · rw [hd] at hgt; simp at hgt
  · have hx : x ∈ ns := List.mem_dedup.mp (by rw [hd]; simp)
    have hy : y ∈ ns := List.mem_dedup.mp (by rw [hd]; simp)
    have hnd := List.nodup_dedup ns
    rw [hd] at hnd
    obtain ⟨hxny, -⟩ := List.nodup_cons.mp hnd
    exact hxny ((h x hx y hy) ▸ List.mem_cons_self _ _)

theorem one_lt_dedup_len {ns : List Nat} {a b : Nat}
    (ha : a ∈ ns) (hb : b ∈ ns) (hab : a ≠ b) : 1 < ns.dedup.length := by
  by_contra hle
  exact hab (all_eq_of_dedup_len_le_one (Nat.le_of_not_lt hle) a ha b hb)

theorem checkLengths_ok_iff {fs : List (Option Column)} :
    checkLengths fs = .ok () ↔
      (∀ f ∈ fs, f.isSome) ∧
        ∀ f ∈ fs, ∀ g ∈ fs, (colOf f).length = (colOf g).length := by
  constructor
  · intro h
    cases hr : rawLengths fs with
    | error e => simp [checkLengths, hr] at h
    | ok ns =>
        refine ⟨rawLengths_present hr, ?_⟩
        intro f hf g hg
        simp only [checkLengths, hr] at h
        by_cases hlen : ns.dedup.length > 1
        · rw [if_pos hlen] at h; simp at h
        · have hall := all_eq_of_dedup_len_le_one (Nat.le_of_not_lt hlen)
          have hns := rawLengths_ok_val hr
          subst hns
          exact hall _ (List.mem_map.mpr ⟨f, hf, rfl⟩) _
            (List.mem_map.mpr ⟨g, hg, rfl⟩)
  · rintro ⟨hpres, heq⟩
    have hr := rawLengths_ok_of_present hpres
    simp only [checkLengths, hr]
    have hle : (fs.map (fun f => (colOf f).length)).dedup.length ≤ 1 := by
      apply dedup_len_le_one
      intro a ha b hb
      rcases List.mem_map.mp ha with ⟨f, hf, rfl⟩
      rcases List.mem_map.mp hb with ⟨g, hg, rfl⟩
      exact heq f hf g hg
    rw [if_neg (by omega)]

theorem checkLengths_valueError {fs : List (Option Column)}
    (hpres : ∀ f ∈ fs, f.isSome)
    (hne : ∃ f ∈ fs, ∃ g ∈ fs, (colOf f).length ≠ (colOf g).length) :
    checkLengths fs = .error (.valueError lenValMsg) := by
  obtain ⟨f, hf, g, hg, hfg⟩ := hne
  have hr := rawLengths_ok_of_present hpres
  simp only [checkLengths, hr]
  rw [if_pos (one_lt_dedup_len (List.mem_map.mpr ⟨f, hf, rfl⟩)
    (List.mem_map.mpr ⟨g, hg, rfl⟩) hfg)]

theorem checkLengths_typeError {fs : List (Option Column)}
    (h : none ∈ fs) : checkLengths fs = .error (.typeError lenNoneMsg) := by
  simp [checkLengths, rawLengths_of_none h]

theorem layer_mk_checked_ok {t0 t : LayerTable} :
    LayerTable.mk_checked t0 = .ok t ↔
      checkLengths t0.fields = .ok () ∧ t = t0 := by
  unfold LayerTable.mk_checked
  cases h : checkLengths t0.fields with
  | error e => simp
  | ok u => cases u; simp [eq_comm]

theorem cpt_mk_checked_ok {t0 t : CPTTable} :
    CPTTable.mk_checked t0 = .ok t ↔
      checkLengths t0.fields = .ok () ∧ t = t0 := by
  unfold CPTTable.mk_checked
  cases h : checkLengths t0.fields with
  | error e => simp
  | ok u => cases u; simp [eq_comm]

/-! ### Lemmas about the joint-drop tabular view -/

theorem projectColumn_length {c : Column} {mask : List Bool}
    (h : c.length = mask.length) :
    (projectColumn c mask).length = mask.count true := by
  induction c generalizing mask with
  | nil =>
      have hm : mask = [] := List.length_eq_zero.mp (by simpa using h.symm)
      subst hm; rfl
  | cons x xs ih =>
      cases mask with
      | nil => simp at h
      | cons b bs =>
          have hlen : xs.length = bs.length := by simpa using h
          have hih := ih hlen
          cases b <;>
            simp [projectColumn, List.filter_cons, List.count_cons]
              at hih ⊢ <;>
            omega

theorem dropnaMask_length (cols : List Column) :
    (dropnaMask cols).length = nRows cols := by
  simp [dropnaMask]

theorem keepRow_true_of_all_some {cols : List Column} {i : Nat}
    (h : ∀ c ∈ cols, ∀ x ∈ c, x.isSome)
    (hi : ∀ c ∈ cols, i < c.length) :
    keepRow cols i = true := by
  simp only [keepRow, List.all_eq_true]
  intro c hc
  have hlt := hi c hc
  simp only [cellAt, List.getD_eq_getElem c none hlt]
  exact h c hc _ (List.getElem_mem hlt)

theorem layer_valid_col_length {t : LayerTable}
    (h : checkLengths t.fields = .ok ()) :
    ∀ c ∈ t.fields.map colOf, c.length = nRows (t.fields.map colOf) := by
  intro c hc
  rcases List.mem_map.mp hc with ⟨f, hf, rfl⟩
  have heq := (checkLengths_ok_iff.mp h).2
  have hhead : t.geotechnicalSoilName ∈ t.fields := by
    simp [LayerTable.fields]
  have hn : nRows (t.fields.map colOf) =
      (colOf t.geotechnicalSoilName).length := by
    simp [nRows, LayerTable.fields]
  rw [hn]
  exact heq f hf _ hhead

theorem cpt_valid_col_length {t : CPTTable}
    (h : checkLengths t.fields = .ok ()) :
    ∀ c ∈ t.fields.map colOf, c.length = nRows (t.fields.map colOf) := by
  intro c hc
  rcases List.mem_map.mp hc with ⟨f, hf, rfl⟩
  have heq := (checkLengths_ok_iff.mp h).2
  have hhead : t.penetrationLength ∈ t.fields := by
    simp [CPTTable.fields]
  have hn : nRows (t.fields.map colOf) =
      (colOf t.penetrationLength).length := by
    simp [nRows, CPTTable.fields]
  rw [hn]
  exact heq f hf _ hhead

/-! ### Claim C1 -/

/-- C1: constructing a `LayerTable` (ten sequences) or a `CPTTable` (five
sequences) from actual sequences of which at least two have different
lengths always fails with the `ValueError` of `__post_init__`
(the ValidationError), whichever fields are the unequal ones, and no
table value is produced. -/
theorem unequal_length_sequences_fail_validation
    (a1 a2 a3 a4 a5 a6 a7 a8 a9 a10 b1 b2 b3 b4 b5 : Column)
    (hA : ∃ x ∈ [a1, a2, a3, a4, a5, a6, a7, a8, a9, a10],
      ∃ y ∈ [a1, a2, a3, a4, a5, a6, a7, a8, a9, a10],
        x.length ≠ y.length)
    (hB : ∃ x ∈ [b1, b2, b3, b4, b5], ∃ y ∈ [b1, b2, b3, b4, b5],
      x.length ≠ y.length) :
    LayerTable.mk_checked
        ⟨some a1, some a2, some a3, some a4, some a5, some a6, some a7,
          some a8, some a9, some a10⟩ =
      .error (.valueError lenValMsg) ∧
    CPTTable.mk_checked ⟨some b1, some b2, some b3, some b4, some b5⟩ =
      .error (.valueError lenValMsg) := by
  constructor
  · have hcheck : checkLengths (LayerTable.fields
        ⟨some a1, some a2, some a3, some a4, some a5, some a6, some a7,
          some a8, some a9, some a10⟩) =
        .error (.valueError lenValMsg) := by
      apply checkLengths_valueError
      · simp [LayerTable.fields]
      · obtain ⟨x, hx, y, hy, hxy⟩ := hA
        refine ⟨some x, ?_, some y, ?_, by simpa [colOf] using hxy⟩
        · simpa [LayerTable.fields] using
            (List.mem_map (f := some)).mpr ⟨x, hx, rfl⟩
        · simpa [LayerTable.fields] using
            (List.mem_map (f := some)).mpr ⟨y, hy, rfl⟩
    simp [LayerTable.mk_checked, hcheck]
  · have hcheck : checkLengths (CPTTable.fields
        ⟨some b1, some b2, some b3, some b4, some b5⟩) =
        .error (.valueError lenValMsg) := by
      apply checkLengths_valueError
      · simp [CPTTable.fields]
      · obtain ⟨x, hx, y, hy, hxy⟩ := hB
        refine ⟨some x, ?_, some y, ?_, by simpa [colOf] using hxy⟩
        · simpa [CPTTable.fields] using
            (List.mem_map (f := some)).mpr ⟨x, hx, rfl⟩
        · simpa [CPTTable.fields] using
            (List.mem_map (f := some)).mpr ⟨y, hy, rfl⟩
    simp [CPTTable.mk_checked, hcheck]

/-- C1 witness: a one-row first sequence next to empty ones fails for both
tables. -/
theorem unequal_length_sequences_fail_validation_witness :
    LayerTable.mk_checked
        ⟨some [some (.num 1)], some [], some [], some [], some [], some [],
          some [], some [], some [], some []⟩ =
      .error (.valueError lenValMsg) ∧
    CPTTable.mk_checked
        ⟨some [some (.num 1)], some [], some [], some [], some []⟩ =
      .error (.valueError lenValMsg) :=
  unequal_length_sequences_fail_validation
    [some (.num 1)] [] [] [] [] [] [] [] [] [] [some (.num 1)] [] [] [] []
    (by decide) (by decide)

/-! ### Claim C2 -/

/-- An input dictionary for `CPTTable.from_api_response` that carries both
`penetrationLength` and `depth`, with different sequences. -/
def c2dict : ApiDict :=
  [("penetrationLength", [some (.num 1)]), ("depth", [some (.num 2)]),
   ("depthOffset", [some (.num 0)]), ("coneResistance", [some (.num 3)]),
   ("localFriction", [some (.num 4)]), ("frictionRatio", [some (.num 5)])]

/-- The table `CPTTable.from_api_response` builds from `c2dict`. -/
def c2table : CPTTable :=
  ⟨some [some (.num 2)], some [some (.num 0)], some [some (.num 3)],
    some [some (.num 4)], some [some (.num 5)]⟩

/-- C2 counterexample: on an input that contains the key
`penetrationLength` (bound to `[1]`) together with `depth` (bound to
`[2]`), the constructed `penetrationLength` field is the `depth` value,
not the `penetrationLength` value — `depth`, not `penetrationLength`, is
the primary key. -/
theorem penetration_length_alias_counterexample :
    CPTTable.from_api_response c2dict = .ok c2table ∧
    dictGet c2dict "penetrationLength" = some [some (.num 1)] ∧
    c2table.penetrationLength ≠ some [some (.num 1)] :=
  ⟨rfl, rfl, by decide⟩

/-- C2 amended: `depth` is the primary key for `penetrationLength` — when
`depth` is present its value is used and `penetrationLength` is consulted
only when `depth` is absent (so an input containing only `depth` still
yields the same field as the same sequence under `penetrationLength`
alone); `frictionRatio` is taken from `frictionRatio` when present and
from `frictionRatioComputed` only when `frictionRatio` is absent. -/
theorem penetration_length_alias_amended (d : ApiDict) :
    (∀ c t, dictGet d "depth" = some c →
      CPTTable.from_api_response d = .ok t → t.penetrationLength = some c) ∧
    (∀ t, dictGet d "depth" = none →
      CPTTable.from_api_response d = .ok t →
      t.penetrationLength = dictGet d "penetrationLength") ∧
    (∀ c t, dictGet d "frictionRatio" = some c →
      CPTTable.from_api_response d = .ok t → t.frictionRatio = some c) ∧
    (∀ t, dictGet d "frictionRatio" = none →
      CPTTable.from_api_response d = .ok t →
      t.frictionRatio = dictGet d "frictionRatioComputed") := by
  refine ⟨?_, ?_, ?_, ?_⟩
  · intro c t hd hok
    obtain ⟨-, rfl⟩ := cpt_mk_checked_ok.mp hok
    simp [hd, Option.orElse]
  · intro t hd hok
    obtain ⟨-, rfl⟩ := cpt_mk_checked_ok.mp hok
    simp [hd, Option.orElse]
  · intro c t hd hok
    obtain ⟨-, rfl⟩ := cpt_mk_checked_ok.mp hok
    simp [hd, Option.orElse]
  · intro t hd hok
    obtain ⟨-, rfl⟩ := cpt_mk_checked_ok.mp hok
    simp [hd, Option.orElse]

/-- C2 amended witness: on `c2dict` (where `depth` is present) the
constructed field is the `depth` sequence. -/
theorem penetration_length_alias_amended_witness :
    c2table.penetrationLength = some [some (.num 2)] :=
  (penetration_length_alias_amended c2dict).1 [some (.num 2)] c2table
    rfl rfl

/-! ### Claim C3 -/

/-- The ten keys consumed by `LayerTable.from_api_response`. -/
def layerKeys : List String :=
  ["geotechnicalSoilName", "lowerBoundary", "upperBoundary", "color",
   "mainComponent", "cohesion", "gamma_sat", "gamma_unsat", "phi",
   "undrainedShearStrength"]

/-- A classify response whose nine present keys all map to equal-length
(one-entry) sequences but which omits `undrainedShearStrength`. -/
def c3dict : ApiDict :=
  [("geotechnicalSoilName", [some (.str "Peat")]),
   ("lowerBoundary", [some (.num 1)]),
   ("upperBoundary", [some (.num 0)]),
   ("color", [some (.str "#112233")]),
   ("mainComponent", [some (.str "peat")]),
   ("cohesion", [some (.num 1)]),
   ("gamma_sat", [some (.num 11)]),
   ("gamma_unsat", [some (.num 10)]),
   ("phi", [some (.num 17)])]

/-- C3 counterexample: an input whose present keys all map to equal-length
sequences but which omits one key does NOT construct successfully — the
`None` stored for the missing field makes `len(None)` in `__post_init__`
raise a `TypeError`, not the validation `ValueError`. -/
theorem missing_key_still_constructs_counterexample :
    LayerTable.from_api_response c3dict = .error (.typeError lenNoneMsg) ∧
    dictGet c3dict "undrainedShearStrength" = none := ⟨rfl, rfl⟩

/-- C3 amended: a key missing from the input dictionary yields `None` for
that field, but the `None` does not propagate per-entry: `__post_init__`
calls `len` on every field, so construction fails with a `TypeError`
whenever any of the ten keys is absent; a successful construction requires
all ten keys to be present (the validation `ValueError` being reserved for
present keys with unequal-length sequences). -/
theorem missing_key_type_error_amended (d : ApiDict) :
    ((∃ k ∈ layerKeys, dictGet d k = none) →
      LayerTable.from_api_response d = .error (.typeError lenNoneMsg)) ∧
    (∀ t, LayerTable.from_api_response d = .ok t →
      ∀ k ∈ layerKeys, (dictGet d k).isSome) := by
  constructor
  · rintro ⟨k, hk, hnone⟩
    have hmem : none ∈ layerKeys.map (dictGet d) :=
      List.mem_map.mpr ⟨k, hk, hnone⟩
    have hcheck : checkLengths (layerKeys.map (dictGet d)) =
        .error (.typeError lenNoneMsg) := checkLengths_typeError hmem
    simp only [LayerTable.from_api_response, LayerTable.mk_checked]
    have hfields : LayerTable.fields
        { geotechnicalSoilName := dictGet d "geotechnicalSoilName"
          lowerBoundary := dictGet d "lowerBoundary"
          upperBoundary := dictGet d "upperBoundary"
          color := dictGet d "color"
          mainComponent := dictGet d "mainComponent"
          cohesion := dictGet d "cohesion"
          gamma_sat := dictGet d "gamma_sat"
          gamma_unsat := dictGet d "gamma_unsat"
          phi := dictGet d "phi"
          undrainedShearStrength := dictGet d "undrainedShearStrength" } =
        layerKeys.map (dictGet d) := rfl
    rw [hfields, hcheck]
  · intro t hok k hk
    obtain ⟨hcheck, rfl⟩ :=
      layer_mk_checked_ok.mp hok
    have hpres := (checkLengths_ok_iff.mp hcheck).1
    have : dictGet d k ∈ layerKeys.map (dictGet d) :=
      List.mem_map.mpr ⟨k, hk, rfl⟩
    exact hpres _ this

/-- C3 amended witness: `c3dict` omits `undrainedShearStrength`, so the
factory raises the `TypeError`. -/
theorem missing_key_type_error_amended_witness :
    LayerTable.from_api_response c3dict =
      .error (.typeError lenNoneMsg) :=
  (missing_key_type_error_amended c3dict).1
    ⟨"undrainedShearStrength", by decide, rfl⟩

/-! ### Claim C4 -/

/-- C4: the tabular-view drop is joint across columns — for every validly
constructed `LayerTable` or `CPTTable`, every column of the derived
`dataframe` has exactly the surviving-row count (so no column retains more
rows than another). -/
theorem joint_drop_equal_column_lengths :
    (∀ (t0 t : LayerTable), LayerTable.mk_checked t0 = .ok t →
      ∀ c ∈ t.dataframe, c.length = t.nSurvivingRows) ∧
    (∀ (t0 t : CPTTable), CPTTable.mk_checked t0 = .ok t →
      ∀ c ∈ t.dataframe, c.length = t.nSurvivingRows) := by
  constructor
  · intro t0 t hok c hc
    obtain ⟨hcheck, rfl⟩ := layer_mk_checked_ok.mp hok
    simp only [LayerTable.dataframe, dropna] at hc
    rcases List.mem_map.mp hc with ⟨c0, hc0, rfl⟩
    have hlen : c0.length =
        (dropnaMask (t.fields.map colOf)).length := by
      rw [dropnaMask_length]
      exact layer_valid_col_length hcheck c0 hc0
    rw [LayerTable.nSurvivingRows]
    exact projectColumn_length hlen
  · intro t0 t hok c hc
    obtain ⟨hcheck, rfl⟩ := cpt_mk_checked_ok.mp hok
    simp only [CPTTable.dataframe, dropna] at hc
    rcases List.mem_map.mp hc with ⟨c0, hc0, rfl⟩
    have hlen : c0.length =
        (dropnaMask (t.fields.map colOf)).length := by
      rw [dropnaMask_length]
      exact cpt_valid_col_length hcheck c0 hc0
    rw [CPTTable.nSurvivingRows]
    exact projectColumn_length hlen

/-- A valid two-row `LayerTable` whose last column misses its second
entry, so the second row is dropped jointly. -/
def c4table : LayerTable :=
  ⟨some [some (.num 1), some (.num 2)], some [some (.num 1), some (.num 2)],
   some [some (.num 1), some (.num 2)], some [some (.num 1), some (.num 2)],
   some [some (.num 1), some (.num 2)], some [some (.num 1), some (.num 2)],
   some [some (.num 1), some (.num 2)], some [some (.num 1), some (.num 2)],
   some [some (.num 1), some (.num 2)], some [some (.num 1), none]⟩

/-- C4 witness: the first projected column of `c4table` (one surviving
row) has exactly the surviving-row count. -/
theorem joint_drop_equal_column_lengths_witness :
    ([some (Val.num 1)] : Column).length = c4table.nSurvivingRows :=
  joint_drop_equal_column_lengths.1 c4table c4table rfl
    [some (Val.num 1)] (by decide)

/-! ### Claim C5 -/

theorem rows_le_of_valid {cols : List Column} {n : Nat}
    (hlen : ∀ c ∈ cols, c.length = nRows cols) (hn : nRows cols = n) :
    (dropnaMask cols).count true ≤ n ∧
      ((∀ c ∈ cols, ∀ x ∈ c, x.isSome) →
        (dropnaMask cols).count true = n) := by
  constructor
  · calc (dropnaMask cols).count true ≤ (dropnaMask cols).length :=
        List.count_le_length true _
      _ = n := by rw [dropnaMask_length, hn]
  · intro hall
    have hmask : ∀ b ∈ dropnaMask cols, true = b := by
      intro b hb
      rcases List.mem_map.mp hb with ⟨i, hi, rfl⟩
      have hicol : ∀ c ∈ cols, i < c.length := by
        intro c hc
        rw [hlen c hc]
        exact List.mem_range.mp hi
      exact (keepRow_true_of_all_some hall hicol).symm
    rw [List.count_eq_length.mpr hmask, dropnaMask_length, hn]

/-- C5: for every valid equal-length input of length `n`, the derived
tabular view of `from_api_response(...)` has row count at most `n`, and
exactly `n` when no field of any row contains a missing value — for both
`LayerTable` and `CPTTable`. -/
theorem tabular_view_row_count_bound :
    (∀ (d : ApiDict) (t : LayerTable) (n : Nat),
      LayerTable.from_api_response d = .ok t →
      nRows (t.fields.map colOf) = n →
      t.nSurvivingRows ≤ n ∧
        ((∀ c ∈ t.fields.map colOf, ∀ x ∈ c, x.isSome) →
          t.nSurvivingRows = n)) ∧
    (∀ (d : ApiDict) (t : CPTTable) (n : Nat),
      CPTTable.from_api_response d = .ok t →
      nRows (t.fields.map colOf) = n →
      t.nSurvivingRows ≤ n ∧
        ((∀ c ∈ t.fields.map colOf, ∀ x ∈ c, x.isSome) →
          t.nSurvivingRows = n)) := by
  constructor
  · intro d t n hok hn
    obtain ⟨hcheck, rfl⟩ := layer_mk_checked_ok.mp hok
    exact rows_le_of_valid (layer_valid_col_length hcheck) hn
  · intro d t n hok hn
    obtain ⟨hcheck, rfl⟩ := cpt_mk_checked_ok.mp hok
    exact rows_le_of_valid (cpt_valid_col_length hcheck) hn

/-- A parse-data dictionary with five equal-length one-entry sequences and
no missing value. -/
def c5dict : ApiDict :=
  [("penetrationLength", [some (.num 1)]), ("depthOffset", [some (.num 0)]),
   ("coneResistance", [some (.num 3)]), ("localFriction", [some (.num 4)]),
   ("frictionRatio", [some (.num 5)])]

/-- The table built from `c5dict`. -/
def c5table : CPTTable :=
  ⟨some [some (.num 1)], some [some (.num 0)], some [some (.num 3)],
   some [some (.num 4)], some [some (.num 5)]⟩

/-- C5 witness: the view of the one-row input has at most — and, having no
missing value, exactly — one row. -/
theorem tabular_view_row_count_bound_witness :
    c5table.nSurvivingRows ≤ 1 ∧ c5table.nSurvivingRows = 1 := by
  have h := tabular_view_row_count_bound.2 c5dict c5table 1 rfl rfl
  exact ⟨h.1, h.2 (by decide)⟩

/-! ### Claim C6 -/

theorem hlineOf_none (off : ParseVal) (c lbl : String) :
    hlineOf off none c lbl = .ok [] := rfl

theorem hlineOf_num {off g : Int} {c lbl : String} (hg : g ≠ 0) :
    hlineOf (.v (.num off)) (some (.v (.num g))) c lbl =
      .ok [⟨off - g, c, "--", lbl⟩] := by
  simp [hlineOf, pyTruthy, pySub, hg]

theorem hlineOf_labels {off : ParseVal} {v : Option ParseVal}
    {c lbl : String} {xs : List HLine}
    (h : hlineOf off v c lbl = .ok xs) : ∀ l ∈ xs, l.label = lbl := by
  intro l hl
  match v with
  | none =>
      simp only [hlineOf] at h
      injection h with h
      subst h
      cases hl
  | some g =>
      simp only [hlineOf] at h
      by_cases ht : pyTruthy g
      · rw [if_pos ht] at h
        cases hs : pySub off g with
        | error e => rw [hs] at h; cases h
        | ok y =>
            rw [hs] at h
            injection h with h
            subst h
            rw [List.mem_singleton.mp hl]
      · rw [if_neg ht] at h
        injection h with h
        subst h
        cases hl

/-- A `SoilProperties` whose groundwater level is present but equal to
`0`, with no pre-drilled depth. -/
def c6sp : SoilProperties :=
  { cpt_table := ⟨some [], some [], some [], some [], some []⟩
    layer_table := ⟨some [], some [], some [], some [], some [], some [],
      some [], some [], some [], some []⟩
    location := ⟨some (.str "EPSG:4326"), some (.num 5), some (.num 52)⟩
    verticalPositionReferencePoint := .v (.str "NAP")
    verticalPositionOffset := .v (.num 3)
    predrilledDepth := none
    label := .v (.str "CPT-6")
    groundwaterLevel := some (.v (.num 0)) }

/-- C6 counterexample: `c6sp.groundwaterLevel` is present (not `None`),
yet `SoilProperties.plot` draws no groundwater reference line, because the
source guards the `axhline` with the truthiness of the value and `0.0` is
falsy in Python. -/
theorem groundwater_line_presence_counterexample :
    c6sp.groundwaterLevel = some (.v (.num 0)) ∧
    c6sp.plotHLines = .ok [] := ⟨rfl, rfl⟩

theorem hlineOf_falsy {off g : ParseVal} {c lbl : String}
    (hg : pyTruthy g = false) : hlineOf off (some g) c lbl = .ok [] := by
  simp [hlineOf, hg]

/-- C6 amended: a horizontal line labelled "Groundwater level" at
`verticalPositionOffset - groundwaterLevel` is drawn whenever the
groundwater level is present AND truthy (for a numeric value: nonzero) —
not merely present — and no such line is drawn when it is absent or when
it is present but falsy (such as `0.0`); likewise the "Surface level"
line for `predrilledDepth`. -/
theorem groundwater_line_truthy_amended (sp : SoilProperties) (off : Int)
    (hoff : sp.verticalPositionOffset = .v (.num off)) :
    (∀ (g : Int) (ls : List HLine), sp.plotHLines = .ok ls →
      sp.groundwaterLevel = some (.v (.num g)) → g ≠ 0 →
      HLine.mk (off - g) "tab:blue" "--" "Groundwater level" ∈ ls) ∧
    (∀ ls, sp.plotHLines = .ok ls → sp.groundwaterLevel = none →
      ∀ l ∈ ls, l.label ≠ "Groundwater level") ∧
    (∀ g ls, sp.plotHLines = .ok ls → sp.groundwaterLevel = some g →
      pyTruthy g = false → ∀ l ∈ ls, l.label ≠ "Groundwater level") ∧
    (∀ (p : Int) (ls : List HLine), sp.plotHLines = .ok ls →
      sp.predrilledDepth = some (.v (.num p)) → p ≠ 0 →
      HLine.mk (off - p) "tab:brown" "--" "Surface level" ∈ ls) ∧
    (∀ ls, sp.plotHLines = .ok ls → sp.predrilledDepth = none →
      ∀ l ∈ ls, l.label ≠ "Surface level") ∧
    (∀ g ls, sp.plotHLines = .ok ls → sp.predrilledDepth = some g →
      pyTruthy g = false → ∀ l ∈ ls, l.label ≠ "Surface level") := by
  refine ⟨?_, ?_, ?_, ?_, ?_, ?_⟩
  · intro g ls hls hgw hg0
    simp only [SoilProperties.plotHLines, hoff, hgw,
      hlineOf_num hg0] at hls
    cases hpd : hlineOf (ParseVal.v (.num off)) sp.predrilledDepth
        "tab:brown" "Surface level" with
    | error e => rw [hpd] at hls; cases hls
    | ok pdl =>
        rw [hpd] at hls
        injection hls with hls
        subst hls
        exact List.mem_cons_self _ _
  · intro ls hls hgw l hl
    simp only [SoilProperties.plotHLines, hgw, hlineOf_none] at hls
    cases hpd : hlineOf sp.verticalPositionOffset sp.predrilledDepth
        "tab:brown" "Surface level" with
    | error e => rw [hpd] at hls; cases hls
    | ok pdl =>
        rw [hpd] at hls
        injection hls with hls
        subst hls
        rw [hlineOf_labels hpd l (by simpa using hl)]
        decide
  · intro g ls hls hgw htr l hl
    simp only [SoilProperties.plotHLines, hgw, hlineOf_falsy htr] at hls
    cases hpd : hlineOf sp.verticalPositionOffset sp.predrilledDepth
        "tab:brown" "Surface level" with
    | error e => rw [hpd] at hls; cases hls
    | ok pdl =>
        rw [hpd] at hls
        injection hls with hls
        subst hls
        rw [hlineOf_labels hpd l (by simpa using hl)]
        decide
  · intro p ls hls hpd hp0
    simp only [SoilProperties.plotHLines, hoff, hpd] at hls
    cases hgw : hlineOf (ParseVal.v (.num off)) sp.groundwaterLevel
        "tab:blue" "Groundwater level" with
    | error e => rw [hgw] at hls; cases hls
    | ok gwl =>
        rw [hgw, hlineOf_num hp0] at hls
        injection hls with hls
        subst hls
        exact List.mem_append_right _ (List.mem_cons_self _ _)
  · intro ls hls hpd l hl
    simp only [SoilProperties.plotHLines, hpd, hlineOf_none] at hls
    cases hgw : hlineOf sp.verticalPositionOffset sp.groundwaterLevel
        "tab:blue" "Groundwater level" with
    | error e => rw [hgw] at hls; cases hls
    | ok gwl =>
        rw [hgw] at hls
        injection hls with hls
        subst hls
        rw [hlineOf_labels hgw l (by simpa using hl)]
        decide
  · intro g ls hls hpd htr l hl
    simp only [SoilProperties.plotHLines, hpd, hlineOf_falsy htr] at hls
    cases hgw : hlineOf sp.verticalPositionOffset sp.groundwaterLevel
        "tab:blue" "Groundwater level" with
    | error e => rw [hgw] at hls; cases hls
    | ok gwl =>
        rw [hgw] at hls
        injection hls with hls
        subst hls
        rw [hlineOf_labels hgw l (by simpa using hl)]
        decide

/-- A `SoilProperties` with offset `5`, groundwater level `2` and no
pre-drilled depth. -/
def c6wsp : SoilProperties :=
  { cpt_table := ⟨some [], some [], some [], some [], some []⟩
    layer_table := ⟨some [], some [], some [], some [], some [], some [],
      some [], some [], some [], some []⟩
    location := ⟨some (.str "EPSG:4326"), some (.num 5), some (.num 52)⟩
    verticalPositionReferencePoint := .v (.str "NAP")
    verticalPositionOffset := .v (.num 5)
    predrilledDepth := none
    label := .v (.str "CPT-6w")
    groundwaterLevel := some (.v (.num 2)) }

/-- C6 amended witness: with offset `5` and groundwater level `2`, the
blue dashed groundwater line at `y = 3` is among the drawn lines. -/
theorem groundwater_line_truthy_amended_witness :
    HLine.mk 3 "tab:blue" "--" "Groundwater level" ∈
      ([⟨3, "tab:blue", "--", "Groundwater level"⟩] : List HLine) :=
  (groundwater_line_truthy_amended c6wsp 5 rfl).1 2
    [⟨3, "tab:blue", "--", "Groundwater level"⟩] rfl rfl (by decide)

/-! ### Claim C7 -/

/-- C7: `SoilProperties.from_api_response` defaults
`verticalPositionReferencePoint` to `"Unknown"`, `verticalPositionOffset`
to `0` and `label` to `"Unknown"` when the key is absent from the parse
response, uses the present value otherwise, and stores `predrilledDepth`
and `groundwaterLevel` exactly as looked up (absent keys giving `None`). -/
theorem soil_properties_metadata_defaults (p : ParseDict) (c : ApiDict)
    (sp : SoilProperties)
    (h : SoilProperties.from_api_response p c = .ok sp) :
    (parseGet p "verticalPositionReferencePoint" = none →
      sp.verticalPositionReferencePoint = .v (.str "Unknown")) ∧
    (∀ x, parseGet p "verticalPositionReferencePoint" = some x →
      sp.verticalPositionReferencePoint = x) ∧
    (parseGet p "verticalPositionOffset" = none →
      sp.verticalPositionOffset = .v (.num 0)) ∧
    (∀ x, parseGet p "verticalPositionOffset" = some x →
      sp.verticalPositionOffset = x) ∧
    (parseGet p "label" = none → sp.label = .v (.str "Unknown")) ∧
    (∀ x, parseGet p "label" = some x → sp.label = x) ∧
    sp.predrilledDepth = parseGet p "predrilledDepth" ∧
    sp.groundwaterLevel = parseGet p "groundwaterLevel" := by
  unfold SoilProperties.from_api_response at h
  cases h1 : dataBlock p with
  | error e => simp only [h1] at h; cases h
  | ok data =>
      simp only [h1] at h
      cases h2 : CPTTable.from_api_response data with
      | error e => simp only [h2] at h; cases h
      | ok cpt =>
          simp only [h2] at h
          cases h3 : LayerTable.from_api_response c with
          | error e => simp only [h3] at h; cases h
          | ok layer =>
              simp only [h3] at h
              cases h4 : locBlock p with
              | error e => simp only [h4] at h; cases h
              | ok location =>
                  simp only [h4] at h
                  injection h with h
                  subst h
                  exact ⟨fun hx => by simp [hx], fun x hx => by simp [hx],
                    fun hx => by simp [hx], fun x hx => by simp [hx],
                    fun hx => by simp [hx], fun x hx => by simp [hx],
                    rfl, rfl⟩

/-- A parse response holding only a `data` block and a `label`. -/
def c7parse : ParseDict :=
  [("data", .table
      [("penetrationLength", [some (.num 1)]),
       ("depthOffset", [some (.num 0)]),
       ("coneResistance", [some (.num 3)]),
       ("localFriction", [some (.num 4)]),
       ("frictionRatio", [some (.num 5)])]),
   ("label", .v (.str "CPT-7"))]

/-- A classify response with ten equal-length one-entry sequences. -/
def c7classify : ApiDict :=
  [("geotechnicalSoilName", [some (.str "Sand")]),
   ("lowerBoundary", [some (.num 1)]),
   ("upperBoundary", [some (.num 0)]),
   ("color", [some (.str "#aabbcc")]),
   ("mainComponent", [some (.str "sand")]),
   ("cohesion", [some (.num 0)]),
   ("gamma_sat", [some (.num 20)]),
   ("gamma_unsat", [some (.num 18)]),
   ("phi", [some (.num 30)]),
   ("undrainedShearStrength", [some (.num 50)])]

/-- The aggregate built from `c7parse` and `c7classify`. -/
def c7sp : SoilProperties :=
  { cpt_table := ⟨some [some (.num 1)], some [some (.num 0)],
      some [some (.num 3)], some [some (.num 4)], some [some (.num 5)]⟩
    layer_table := ⟨some [some (.str "Sand")], some [some (.num 1)],
      some [some (.num 0)], some [some (.str "#aabbcc")],
      some [some (.str "sand")], some [some (.num 0)],
      some [some (.num 20)], some [some (.num 18)],
      some [some (.num 30)], some [some (.num 50)]⟩
    location := ⟨none, none, none⟩
    verticalPositionReferencePoint := .v (.str "Unknown")
    verticalPositionOffset := .v (.num 0)
    predrilledDepth := none
    label := .v (.str "CPT-7")
    groundwaterLevel := none }

/-- C7 witness: `c7parse` omits the offset key and carries a label, so the
aggregate has offset `0` and label `"CPT-7"`. -/
theorem soil_properties_metadata_defaults_witness :
    c7sp.verticalPositionOffset = .v (.num 0) ∧
    c7sp.label = .v (.str "CPT-7") := by
  have h := soil_properties_metadata_defaults c7parse c7classify c7sp rfl
  exact ⟨h.2.2.1 rfl, h.2.2.2.2.2.1 (.v (.str "CPT-7")) rfl⟩

/-! ### Claim C8 -/

/-- C8: `Location.transform` returns the parsed JSON body for every
successful response of the reprojection service and raises a
`RuntimeError` carrying the raw response body for every unsuccessful
one. -/
theorem transform_success_and_error (J : Type) (parseJson : String → J)
    (http : String → HttpResponse) (l : Location) :
    ((http (Location.url l)).ok = true →
      Location.transform parseJson http l =
        .ok (parseJson (http (Location.url l)).text)) ∧
    ((http (Location.url l)).ok = false →
      Location.transform parseJson http l =
        .error (.runtimeError (http (Location.url l)).content)) := by
  constructor <;> intro h <;> simp [Location.transform, h]

/-- A location at longitude 5, latitude 52. -/
def c8loc : Location := ⟨some (.str "EPSG:4326"), some (.num 5), some (.num 52)⟩

/-- A service that always answers successfully with body `"[4, 5]"`. -/
def httpOkW : String → HttpResponse := fun _ => ⟨true, "[4, 5]", "[4, 5]"⟩

/-- A service that always fails with raw body `"boom"`. -/
def httpBadW : String → HttpResponse := fun _ => ⟨false, "", "boom"⟩

/-- C8 witness: the identity parser returns the successful body, and the
failing service yields the `RuntimeError` carrying `"boom"`. -/
theorem transform_success_and_error_witness :
    Location.transform (fun s => s) httpOkW c8loc = .ok "[4, 5]" ∧
    Location.transform (fun s => s) httpBadW c8loc =
      .error (.runtimeError "boom") :=
  ⟨(transform_success_and_error String (fun s => s) httpOkW c8loc).1 rfl,
   (transform_success_and_error String (fun s => s) httpBadW c8loc).2 rfl⟩

/-! ### Claim C9 -/

/-- C9: every entity is immutable after construction — the dataclass
constructors return a value holding exactly the fields they were given
(`__post_init__` only validates), the `frozen=True` `__setattr__` raises
on every attempted field assignment, and the state-threaded embeddings of
`dataframe`, `transform` and the plotting logic return the entity they
were invoked on unchanged. -/
theorem entities_immutable :
    (∀ (t0 t : LayerTable), LayerTable.mk_checked t0 = .ok t → t = t0) ∧
    (∀ (t0 t : CPTTable), CPTTable.mk_checked t0 = .ok t → t = t0) ∧
    (∀ fld, frozenSetattr fld = .error (.frozenInstanceError fld)) ∧
    (∀ t : LayerTable, (t.dataframe_st).2 = t) ∧
    (∀ t : CPTTable, (t.dataframe_st).2 = t) ∧
    (∀ (J : Type) (parseJson : String → J) (http : String → HttpResponse)
      (l : Location), (Location.transform_st parseJson http l).2 = l) ∧
    (∀ sp : SoilProperties, (sp.plotHLines_st).2 = sp) := by
  refine ⟨?_, ?_, fun _ => rfl, fun _ => rfl, fun _ => rfl,
    fun _ _ _ _ => rfl, fun _ => rfl⟩
  · intro t0 t hok
    exact (layer_mk_checked_ok.mp hok).2
  · intro t0 t hok
    exact (cpt_mk_checked_ok.mp hok).2

/-- An empty but valid `LayerTable`. -/
def c9layer : LayerTable :=
  ⟨some [], some [], some [], some [], some [], some [], some [], some [],
   some [], some []⟩

/-- An empty but valid `CPTTable`. -/
def c9cpt : CPTTable := ⟨some [], some [], some [], some [], some []⟩

/-- C9 witness: the validated constructors return the given empty tables
unchanged. -/
theorem entities_immutable_witness : c9layer = c9layer ∧ c9cpt = c9cpt :=
  ⟨entities_immutable.1 c9layer c9layer rfl,
   entities_immutable.2.1 c9cpt c9cpt rfl⟩

/-! ### Claim C10 -/

theorem layer_st_eq (d : ApiDict) :
    LayerTable.from_api_response_st d =
      (LayerTable.from_api_response d, d) := rfl

theorem cpt_st_eq (d : ApiDict) :
    CPTTable.from_api_response_st d =
      (CPTTable.from_api_response d, d) := rfl

theorem soil_st_eq (p : ParseDict) (c : ApiDict) :
    SoilProperties.from_api_response_st p c =
      (SoilProperties.from_api_response p c, p, c) := by
  simp only [SoilProperties.from_api_response_st, parseGet_st, cpt_st_eq,
    layer_st_eq, SoilProperties.from_api_response, dataBlock, locBlock]
  cases parseGet p "data" with
  | none =>
      dsimp only
      cases CPTTable.from_api_response [] with
      | error e => rfl
      | ok cpt =>
          dsimp only
          cases LayerTable.from_api_response c with
          | error e => rfl
          | ok layer =>
              dsimp only
              cases parseGet p "location" with
              | none => rfl
              | some lv => cases lv <;> rfl
  | some dv =>
      cases dv with
      | v x => rfl
      | loc L => rfl
      | table t =>
          dsimp only
          cases CPTTable.from_api_response t with
          | error e => rfl
          | ok cpt =>
              dsimp only
              cases LayerTable.from_api_response c with
              | error e => rfl
              | ok layer =>
                  dsimp only
                  cases parseGet p "location" with
                  | none => rfl
                  | some lv => cases lv <;> rfl

/-- C10: the three factory classmethods never mutate their input — with
every dictionary read threaded through the state, each factory returns the
dictionaries it was given unchanged (the nested `data` block passing
through the `CPTTable` factory and the classify dictionary through the
`LayerTable` factory), and produces the same table as the plain
embedding. -/
theorem factories_leave_input_unchanged :
    (∀ d : ApiDict, LayerTable.from_api_response_st d =
      (LayerTable.from_api_response d, d)) ∧
    (∀ d : ApiDict, CPTTable.from_api_response_st d =
      (CPTTable.from_api_response d, d)) ∧
    (∀ (p : ParseDict) (c : ApiDict),
      SoilProperties.from_api_response_st p c =
        (SoilProperties.from_api_response p c, p, c)) :=
  ⟨layer_st_eq, cpt_st_eq, soil_st_eq⟩

end PyCptCore
